import Mathlib

/-!
Verification of the SUTiL report pipeline

This development embeds the SUTiL pipeline of `ts_logging_and_reporting`
(Retrieve, Merge, Compact, Reduce, Render) and the notebook-level helpers
(day-obs window resolution, facet computation, parameter fallback) and
proves the testable properties stated for them.

The pipeline package itself (`lsst.ts.logging_and_reporting`) is described
by the repository design document (SUTiL white paper) and the specification;
the notebooks under `notebooks_tsqr/` carry the concrete window arithmetic,
facet computation and parameter handling that are embedded verbatim below.
-/

set_option maxHeartbeats 1600000

namespace LogRep

/-- Modelled from the spec: the open-schema tagged-union value type of §9 —
a field value is a scalar number, a (short or long) string, or a list.
A missing field (null) is represented by absence of the key. -/
inductive Value where
  | num (n : Int)
  | str (s : String)
  | vlist (xs : List String)
deriving DecidableEq

/-- Modelled from the spec: a Record (§3) — one atomic observation with a
timestamp (optional here because records lacking one are rejected by the
Merger rather than being unrepresentable) and an open field mapping. -/
structure SrcRec where
  timestamp : Option Nat
  fields : List (String × Value)
deriving DecidableEq

/-- Merger input: a collection of per-source record sets (§4.1),
in source-declaration order. -/
abbrev SourceInput := List (String × List SrcRec)

/-- One row of the UnifiedTable: source tag, timestamp, and the populated
cells keyed by (possibly qualified) column name.  Absent key = null cell. -/
structure Row where
  source : String
  ts : Nat
  cells : List (String × Value)
deriving DecidableEq

/-- Modelled from the spec: the UnifiedTable (§3) — one row per record,
one column per distinct (qualified) field name. -/
structure UnifiedTable where
  columns : List String
  rows : List Row
deriving DecidableEq

/-- Number of sources in the input that use field name `f` in some record. -/
def sourcesUsingField (input : SourceInput) (f : String) : Nat :=
  (input.filter (fun p => p.2.any (fun r => r.fields.any (fun c => c.1 == f)))).length

/-- Modelled from the spec: column-name qualification policy of §4.1 —
prefix with the source identifier only on cross-source collision,
otherwise keep the bare field name. -/
def qualName (input : SourceInput) (src f : String) : String :=
  if 2 ≤ sourcesUsingField input f then src ++ ":" ++ f else f

/-- Modelled from the spec: turn one record of one source into a row of the
UnifiedTable; a record missing its timestamp is rejected (yields none). -/
def recRow (input : SourceInput) (src : String) (r : SrcRec) : Option Row :=
  match r.timestamp with
  | some t =>
      some { source := src, ts := t,
             cells := r.fields.map (fun c => (qualName input src c.1, c.2)) }
  | none => none

/-- All rows of the merge, in source-declaration order, before sorting. -/
def mergeRows (input : SourceInput) : List Row :=
  input.flatMap (fun p => p.2.filterMap (recRow input p.1))

/-- Stable insertion of a row into a timestamp-sorted list (ties keep the
existing order; a newly inserted row precedes equal timestamps coming from
later positions of the unsorted list). -/
def insertByTs (r : Row) : List Row → List Row
  | [] => [r]
  | x :: xs => if r.ts ≤ x.ts then r :: x :: xs else x :: insertByTs r xs

/-- Stable sort of rows by ascending timestamp (§4.1). -/
def sortByTs : List Row → List Row
  | [] => []
  | r :: rs => insertByTs r (sortByTs rs)

/-- The qualified column set of the merge: union of all field names. -/
def mergeColumns (input : SourceInput) : List String :=
  (input.flatMap
    (fun p => p.2.flatMap (fun r => r.fields.map (fun c => qualName input p.1 c.1)))).dedup

/-- Modelled from the spec: the Merger (§4.1) — `Merge` of the SUTiL design
document.  Union the qualified field names into the column set, emit one row
per timestamp-bearing input record, sort rows by timestamp (stable). -/
def merge (input : SourceInput) : UnifiedTable :=
  { columns := mergeColumns input, rows := sortByTs (mergeRows input) }

/-- Number of rows in which column `c` is populated. -/
def populatedCount (t : UnifiedTable) (c : String) : Nat :=
  t.rows.countP (fun r => r.cells.any (fun cv => cv.1 == c))

/-- Modelled from the spec: column density (§4.2, glossary) — the ratio of
populated rows over total rows, as a rational
(`density = populated_row_count / total_row_count`; see
`density_eq_div` below for the division form). -/
def density (t : UnifiedTable) (c : String) : ℚ :=
  mkRat (populatedCount t c) t.rows.length

/-- Columns surviving compaction: density strictly above the threshold. -/
def keptColumns (t : UnifiedTable) (th : ℚ) : List String :=
  t.columns.filter (fun c => decide (th < density t c))

/-- Restrict a row to the kept columns (cells of dropped columns removed). -/
def restrictRow (kept : List String) (r : Row) : Row :=
  { r with cells := r.cells.filter (fun cv => kept.contains cv.1) }

/-- Modelled from the spec: the Compactor (§4.2) — `Compact` of the SUTiL
design document.  Drop a column when `density ≤ density_threshold`; then
drop any row that has no populated non-key field left. -/
def compact (t : UnifiedTable) (th : ℚ) : UnifiedTable :=
  { columns := keptColumns t th,
    rows := (t.rows.map (restrictRow (keptColumns t th))).filter
      (fun r => !r.cells.isEmpty) }

/-- Ceiling division on naturals: the bucket count `ceil(W/P)` of §4.3. -/
def ceilDiv (a b : Nat) : Nat := (a + b - 1) / b

/-- Modelled from the spec: the bucket intervals of the Reducer (§4.3) —
consecutive half-open buckets of length `period` partitioning
`[window_start, window_end)`; the final bucket is shortened, not dropped,
when the period does not evenly divide the window. -/
def bucketsList (ws we P : Nat) : List (Nat × Nat) :=
  (List.range (ceilDiv (we - ws) P)).map
    (fun i => (ws + i * P, min (ws + (i + 1) * P) we))

/-- Rows of the table whose timestamp falls inside bucket `b`. -/
def rowsIn (rows : List Row) (b : Nat × Nat) : List Row :=
  rows.filter (fun r => decide (b.1 ≤ r.ts) && decide (r.ts < b.2))

/-- The populated values of column `c` over the given rows, in row order. -/
def colVals (c : String) (rows : List Row) : List Value :=
  rows.filterMap (fun r => r.cells.lookup c)

/-- Is the value list-typed? -/
def isListVal : Value → Bool
  | .vlist _ => true
  | _ => false

/-- The string rendering of a value (as the notebooks render one cell). -/
def strOfVal : Value → String
  | .num n => toString n
  | .str s => s
  | .vlist xs => String.intercalate ", " xs

/-- Modelled from the spec: a per-bucket per-column aggregate (§4.3) —
null for an empty bucket, a sum for numeric columns, a distinct-value tally
for categorical columns, a verbatim concatenation for long text, and a
concatenation of list contents for list-valued columns. -/
inductive AggValue where
  | nullAgg
  | sumAgg (n : Int)
  | tallyAgg (t : List (String × Nat))
  | concatAgg (s : String)
  | unionAgg (xs : List String)
deriving DecidableEq

/-- All values are numeric. -/
def allNum (vs : List Value) : Bool :=
  vs.all (fun v => match v with | .num _ => true | _ => false)

/-- All values are list-typed. -/
def allList (vs : List Value) : Bool := vs.all isListVal

/-- Sum of the numeric values. -/
def sumNums (vs : List Value) : Int :=
  (vs.map (fun v => match v with | .num n => n | _ => 0)).sum

/-- Union (concatenation) of list contents across a bucket. -/
def joinLists (vs : List Value) : List String :=
  vs.flatMap (fun v => match v with | .vlist xs => xs | _ => [])

/-- Does any value render longer than `thr` characters? -/
def hasLong (thr : Nat) (vs : List Value) : Bool :=
  vs.any (fun v => decide (thr < (strOfVal v).length))

/-- Distinct values with per-value counts (a tally). -/
def tallyOf (ss : List String) : List (String × Nat) :=
  ss.dedup.map (fun s => (s, ss.count s))

/-- Verbatim concatenation of the renderings, newline separated. -/
def concatTexts (vs : List Value) : String :=
  String.intercalate "\n" (vs.map strOfVal)

/-- Modelled from the spec: the column aggregation rule of §4.3, selected by
inferred column semantics — numeric columns sum, list-valued columns union,
long-text columns concatenate verbatim, categorical columns tally; an empty
bucket aggregates to null. -/
def aggregateVals (vs : List Value) : AggValue :=
  if vs.isEmpty then .nullAgg
  else if allNum vs then .sumAgg (sumNums vs)
  else if allList vs then .unionAgg (joinLists vs)
  else if hasLong 500 vs then .concatAgg (concatTexts vs)
  else .tallyAgg (tallyOf (vs.map strOfVal))

/-- One row of the ReducedTable: a bucket interval with its per-column
aggregates. -/
structure BucketEntry where
  lo : Nat
  hi : Nat
  agg : List (String × AggValue)
deriving DecidableEq

/-- The ReducedTable: one entry per configured bucket, empty or not. -/
abbrev ReducedTable := List BucketEntry

/-- The entry of one bucket: aggregate every column over the rows falling
inside the bucket. -/
def bucketEntry (t : UnifiedTable) (b : Nat × Nat) : BucketEntry :=
  { lo := b.1, hi := b.2,
    agg := t.columns.map (fun c => (c, aggregateVals (colVals c (rowsIn t.rows b)))) }

/-- Modelled from the spec: the Reducer (§4.3) — `Reduce` of the SUTiL
design document.  Partition the window into period buckets and aggregate
every column inside every bucket; empty buckets still appear. -/
def reduce (t : UnifiedTable) (ws we P : Nat) : ReducedTable :=
  (bucketsList ws we P).map (bucketEntry t)

/-- Full-window aggregate of a table: every column aggregated over all rows. -/
def fullWindowAgg (t : UnifiedTable) : List (String × AggValue) :=
  t.columns.map (fun c => (c, aggregateVals (colVals c t.rows)))

/-- The per-column rendering verdict of §3 (FieldClassification). -/
inductive FieldClassification where
  | dense_scalar
  | sparse_scalar
  | long_text
  | list_valued
deriving DecidableEq

/-- Classifier thresholds (externally supplied configuration, §6). -/
structure ClassifierConfig where
  sparsity_threshold : ℚ
  long_text_char_threshold : Nat
deriving DecidableEq

/-- Character length of an aggregate as rendered. -/
def aggLen : AggValue → Nat
  | .nullAgg => 0
  | .sumAgg n => (toString n).length
  | .tallyAgg t => ((t.map (fun p => p.1.length)).sum)
  | .concatAgg s => s.length
  | .unionAgg xs => ((xs.map String.length).sum)

/-- Is the aggregate null (an empty bucket cell)? -/
def isNullAgg : AggValue → Bool
  | .nullAgg => true
  | _ => false

/-- Is the aggregate list-typed? -/
def isListAgg : AggValue → Bool
  | .unionAgg _ => true
  | _ => false

/-- The cell of column `c` in every bucket of the ReducedTable. -/
def colCells (t : ReducedTable) (c : String) : List AggValue :=
  t.map (fun e => (e.agg.lookup c).getD AggValue.nullAgg)

/-- Null ratio of a column across buckets (§4.4 step 1), as a rational
(see `nullRatio_eq_div` below for the division form). -/
def nullRatio (cells : List AggValue) : ℚ :=
  mkRat (cells.countP isNullAgg) cells.length

/-- Modelled from the spec: the per-column heuristic of the Density
Classifier (§4.4) — `long_text` when some bucket renders longer than the
character threshold; otherwise `list_valued` when the values are list-typed
(regardless of sparsity); otherwise `sparse_scalar` when the null ratio
exceeds the sparsity threshold; otherwise `dense_scalar`. -/
def classifyColumn (cfg : ClassifierConfig) (cells : List AggValue) :
    FieldClassification :=
  if cells.any (fun a => decide (cfg.long_text_char_threshold < aggLen a)) then
    .long_text
  else if cells.any isListAgg then .list_valued
  else if cfg.sparsity_threshold < nullRatio cells then .sparse_scalar
  else .dense_scalar

/-- Column names of a ReducedTable. -/
def reducedColumns (t : ReducedTable) : List String :=
  (t.flatMap (fun e => e.agg.map Prod.fst)).dedup

/-- Modelled from the spec: the Density Classifier (§4.4) — a pure function
of the ReducedTable and the configured thresholds, recomputed every run. -/
def densityClassify (cfg : ClassifierConfig) (t : ReducedTable) :
    List (String × FieldClassification) :=
  (reducedColumns t).map (fun c => (c, classifyColumn cfg (colCells t c)))

/-- Ambient per-run state a classification run is embedded in (run counter
and wall clock): the classifier must not depend on it. -/
structure RunContext where
  runIndex : Nat
  wallClock : Nat
deriving DecidableEq

/-- A classification run inside its ambient state: produces the
classification and the advanced state.  The output classification is a
function of the ReducedTable and configuration only. -/
def densityClassifyRun (ctx : RunContext) (cfg : ClassifierConfig)
    (t : ReducedTable) : List (String × FieldClassification) × RunContext :=
  (densityClassify cfg t,
   { runIndex := ctx.runIndex + 1, wallClock := ctx.wallClock + 1 })

/-- Modelled from the spec: the Source Adapter result contract of §6 —
`get_records` returns the records plus a status record; the core treats
`status.ok == false` as zero records plus a recorded error. -/
structure SourceResult where
  records : List SrcRec
  ok : Bool
  error : Option String
  source_url : String
deriving DecidableEq

/-- Run metadata handed to the Renderer (§6): which sources succeeded and
which failed. -/
structure RunMetadata where
  sources_used : List String
  sources_failed : List String
deriving DecidableEq

/-- The Renderer handoff structure of §6: the dense sub-table, the residual
sparse items keyed by (bucket, column, value), and the run metadata. -/
structure Report where
  dense_table : ReducedTable
  sparse_items : List (Nat × String × AggValue)
  metadata : RunMetadata
deriving DecidableEq

/-- The configuration surface consumed by the core (§6). -/
structure PipelineConfig where
  window_start : Nat
  window_end : Nat
  period : Nat
  density_threshold : ℚ
  sparsity_threshold : ℚ
  long_text_char_threshold : Nat
deriving DecidableEq

/-- Configuration validity (§7 ConfigurationError): the period is positive,
the density threshold lies in [0,1], and the window is nonempty. -/
def validConfig (cfg : PipelineConfig) : Bool :=
  decide (0 < cfg.period) && decide (0 ≤ cfg.density_threshold) &&
    decide (cfg.density_threshold ≤ 1) &&
    decide (cfg.window_start < cfg.window_end)

/-- Modelled from the spec: per-source failure recovery (§4.1/§6) — a source
whose status is not ok contributes zero records to the merge. -/
def mergedInput (results : List (String × SourceResult)) : SourceInput :=
  results.map (fun p => (p.1, if p.2.ok then p.2.records else []))

/-- Restriction of the ReducedTable to the dense_scalar columns (§4.4). -/
def denseRestrict (classes : List (String × FieldClassification))
    (reduced : ReducedTable) : ReducedTable :=
  reduced.map (fun e =>
    { lo := e.lo, hi := e.hi,
      agg := e.agg.filter
        (fun p => classes.contains (p.1, FieldClassification.dense_scalar)) })

/-- The residual sparse/list/long-text items keyed by (bucket, column,
value) (§4.4): the populated non-dense cells. -/
def sparseItems (classes : List (String × FieldClassification))
    (reduced : ReducedTable) : List (Nat × String × AggValue) :=
  reduced.flatMap (fun e =>
    (e.agg.filter (fun p =>
        !classes.contains (p.1, FieldClassification.dense_scalar) &&
          !isNullAgg p.2)).map (fun p => (e.lo, p.1, p.2)))

/-- Modelled from the spec: one full report generation (§2/§6/§7) —
configuration errors are fatal (returned as an error before any source data
is consumed); per-source failures are recovered into metadata; the pipeline
Merge, Compact, Reduce, Classify then always runs to completion. -/
def runReport (cfg : PipelineConfig)
    (results : List (String × SourceResult)) : Except String Report :=
  if validConfig cfg then
    let unified := merge (mergedInput results)
    let compacted := compact unified cfg.density_threshold
    let reduced := reduce compacted cfg.window_start cfg.window_end cfg.period
    let classes := densityClassify
      ⟨cfg.sparsity_threshold, cfg.long_text_char_threshold⟩ reduced
    Except.ok
      { dense_table := denseRestrict classes reduced,
        sparse_items := sparseItems classes reduced,
        metadata :=
          { sources_used := (results.filter (fun p => p.2.ok)).map Prod.fst,
            sources_failed := (results.filter (fun p => !p.2.ok)).map Prod.fst } }
  else Except.error "ConfigurationError"

/-- The day_obs notebook parameter after parsing: TODAY, YESTERDAY, an
explicit YYYY-MM-DD date (as a day number), or a malformed string. -/
inductive DayObsParam where
  | today
  | yesterday
  | explicitDate (d : Int)
  | malformed (s : String)
deriving DecidableEq

/-- The raw Times Square parameters of NightLog.ipynb (NightLog.yaml). -/
structure RawParams where
  day_obs : DayObsParam
  number_of_days : Int
  period_hours : Nat
  verbose : Bool
  warning : Bool
deriving DecidableEq

/-- Is the day_obs parameter one of the allowed forms
(YYYY-MM-DD, TODAY, YESTERDAY)? -/
def dayObsValid : DayObsParam → Bool
  | .malformed _ => false
  | _ => true

/-- Parameter validity per NightLog.yaml: day_obs well formed,
number_of_days within [1, 9], a positive period. -/
def paramsValid (p : RawParams) : Bool :=
  dayObsValid p.day_obs && decide (1 ≤ p.number_of_days) &&
    decide (p.number_of_days ≤ 9) && decide (0 < p.period_hours)

/-- Modelled from the spec: `ut.fallback_parameters` of
`lsst.ts.logging_and_reporting.utils` is not under src/; it is modelled from
its call site in NightLog.ipynb — which receives `(usable, error)`, prints
the error when present, and continues with the usable values — and from the
parameter bounds of NightLog.yaml (day_obs one of YYYY-MM-DD, TODAY,
YESTERDAY with default YESTERDAY; number_of_days within [1, 9] with default
1; period with default 4h).  Every invalid value is replaced by its default
and an error message is returned; nothing is raised. -/
def fallback_parameters (p : RawParams) : RawParams × Option String :=
  let dayObsOk := dayObsValid p.day_obs
  let daysOk := decide (1 ≤ p.number_of_days) && decide (p.number_of_days ≤ 9)
  let periodOk := decide (0 < p.period_hours)
  let usable : RawParams :=
    { day_obs := if dayObsOk then p.day_obs else .yesterday,
      number_of_days := if daysOk then p.number_of_days else 1,
      period_hours := if periodOk then p.period_hours else 4,
      verbose := p.verbose, warning := p.warning }
  let err : Option String :=
    if dayObsOk && daysOk && periodOk then none
    else some "bad parameter value replaced by its default"
  (usable, err)

/-- Embedded from NightLog.ipynb: `min_date = date - timedelta(days=days-1)`
with dates as day numbers. -/
def min_day_obs (d : Int) (days : Int) : Int := d - (days - 1)

/-- Embedded from NightLog.ipynb: `max_date = date + timedelta(days=1)`,
the exclusive upper bound of the reporting window. -/
def max_day_obs (d : Int) : Int := d + 1

/-- Membership of a day-obs date in the resolved reporting window
`[min_day_obs, max_day_obs)` (lower inclusive, upper exclusive). -/
def inReportWindow (d days x : Int) : Prop :=
  min_day_obs d days ≤ x ∧ x < max_day_obs d

instance (d days x : Int) : Decidable (inReportWindow d days x) := by
  unfold inReportWindow
  exact inferInstance

/-- Resolve the day_obs parameter to a day number, given today. -/
def resolveDay (todayNum : Int) : DayObsParam → Int
  | .today => todayNum
  | .yesterday => todayNum - 1
  | .explicitDate d => d
  | .malformed _ => todayNum - 1

/-- A pipeline configuration built from usable notebook parameters. -/
def cfgOfUsable (u : RawParams) : PipelineConfig :=
  { window_start := 0,
    window_end := 24 * u.number_of_days.toNat,
    period := u.period_hours,
    density_threshold := 0,
    sparsity_threshold := mkRat 8 10,
    long_text_char_threshold := 500 }

/-- The observable outcome of one NightLog notebook run. -/
structure NightLogOutcome where
  shown_error : Option String
  usable : RawParams
  window_lo : Int
  window_hi : Int
  report : Option Report
deriving DecidableEq

/-- Modelled from the spec: the NightLog.ipynb run sequence — validate the
parameters through `fallback_parameters`, print any error, resolve the
reporting window, then construct AllSources (source retrieval) and the
report unconditionally, using the usable parameter values. -/
def nightLogRun (todayNum : Int) (p : RawParams)
    (results : List (String × SourceResult)) : NightLogOutcome :=
  let u := (fallback_parameters p).1
  let err := (fallback_parameters p).2
  let d := resolveDay todayNum u.day_obs
  { shown_error := err,
    usable := u,
    window_lo := min_day_obs d u.number_of_days,
    window_hi := max_day_obs d,
    report := (runReport (cfgOfUsable u) results).toOption }

/-- Embedded from efd.ipynb: `str(r[fld])` on a record field. -/
def recGet (r : List (String × Value)) (fld : String) : Value :=
  (r.lookup fld).getD (Value.str "")

/-- Embedded from efd.ipynb: the facet of one field —
`set(str(r[fld]) for r in recs if not isinstance(r[fld], list))`. -/
def facetOf (recs : List (List (String × Value))) (fld : String) :
    List String :=
  (((recs.filter (fun r => !isListVal (recGet r fld))).map
      (fun r => strOfVal (recGet r fld)))).dedup

/-- Embedded from efd.ipynb: the facet mapping over the facet fields —
`facets = {fld: set(...) for fld in facflds}`. -/
def efdFacets (recs : List (List (String × Value)))
    (facflds : List String) : List (String × List String) :=
  facflds.map (fun fld => (fld, facetOf recs fld))

/-- The multiset of values observed for a field across the records. -/
def observedVals (recs : List (List (String × Value))) (fld : String) :
    List Value :=
  recs.map (fun r => recGet r fld)

/-- Concrete merge input whose only record lacks a timestamp. -/
def c1InputNoTs : SourceInput :=
  [("src1", [{ timestamp := none, fields := [("fld", Value.num 7)] }])]

/-- Concrete merge input with one timestamp-bearing record. -/
def c1InputOk : SourceInput :=
  [("expo", [{ timestamp := some 5, fields := [("f", Value.num 1)] }])]

/-- Concrete UnifiedTable with 4 rows: column a has density 1/2,
column b has density 3/4, and the last row is fully null. -/
def c2Table : UnifiedTable :=
  { columns := ["a", "b"],
    rows :=
      [ { source := "s", ts := 1, cells := [("a", Value.num 1), ("b", Value.num 2)] },
        { source := "s", ts := 2, cells := [("a", Value.num 3), ("b", Value.num 4)] },
        { source := "s", ts := 3, cells := [("b", Value.num 5)] },
        { source := "s", ts := 4, cells := [] } ] }

/-- The compacted form of the first row of `c2Table` at threshold 1/2. -/
def c3Row : Row := { source := "s", ts := 1, cells := [("b", Value.num 2)] }

/-- Concrete table whose rows all lie inside the window [0, 10). -/
def c4Table : UnifiedTable :=
  { columns := ["n"],
    rows :=
      [ { source := "s", ts := 1, cells := [("n", Value.num 3)] },
        { source := "s", ts := 5, cells := [("n", Value.num 4)] },
        { source := "s", ts := 9, cells := [("n", Value.num 5)] } ] }

/-- Concrete table whose rows all lie inside the window [0, 4). -/
def c5Table : UnifiedTable :=
  { columns := ["n"],
    rows :=
      [ { source := "s", ts := 0, cells := [("n", Value.num 1)] },
        { source := "s", ts := 3, cells := [("n", Value.num 2)] } ] }

/-- Concrete valid pipeline configuration. -/
def c7Cfg : PipelineConfig :=
  { window_start := 0, window_end := 8, period := 4,
    density_threshold := 0, sparsity_threshold := mkRat 8 10,
    long_text_char_threshold := 500 }

/-- Concrete retrieval outcome: one source fails with a network error,
two succeed (the scenario of §8). -/
def c7Sources : List (String × SourceResult) :=
  [ ("narrative",
     { records := [{ timestamp := some 1, fields := [("msg", Value.str "ok")] }],
       ok := true, error := none, source_url := "u1" }),
    ("exposure",
     { records := [{ timestamp := some 2, fields := [("nexp", Value.num 3)] }],
       ok := true, error := none, source_url := "u2" }),
    ("efd",
     { records := [], ok := false,
       error := some "network error", source_url := "u3" }) ]

/-- Concrete invalid notebook parameters: number_of_days = 0 violates the
NightLog.yaml minimum of 1. -/
def c8BadParams : RawParams :=
  { day_obs := DayObsParam.yesterday, number_of_days := 0,
    period_hours := 4, verbose := false, warning := false }

/-- Concrete record set in which the field f carries a list value. -/
def c9Recs : List (List (String × Value)) :=
  [[("f", Value.vlist ["a"])]]

/-- Concrete record set in which the field f carries a scalar string. -/
def c9ScalarRecs : List (List (String × Value)) :=
  [[("f", Value.str "x")], [("f", Value.str "x")]]

/-! ## Lemmas about the stable timestamp sort -/

theorem length_insertByTs (r : Row) (l : List Row) :
    (insertByTs r l).length = l.length + 1 := by
  induction l with
  | nil => rfl
  | cons x xs ih =>
    simp only [insertByTs]
    split
    · rfl
    · simp [ih]

theorem mem_insertByTs (r x : Row) (l : List Row) :
    x ∈ insertByTs r l ↔ x = r ∨ x ∈ l := by
  induction l with
  | nil => simp [insertByTs]
  | cons y ys ih =>
    simp only [insertByTs]
    split
    · simp [List.mem_cons]
    · simp only [List.mem_cons, ih]
      tauto

theorem length_sortByTs (l : List Row) : (sortByTs l).length = l.length := by
  induction l with
  | nil => rfl
  | cons r rs ih => simp [sortByTs, length_insertByTs, ih]

theorem mem_sortByTs (x : Row) (l : List Row) : x ∈ sortByTs l ↔ x ∈ l := by
  induction l with
  | nil => simp [sortByTs]
  | cons r rs ih =>
    simp only [sortByTs, mem_insertByTs, List.mem_cons, ih]

/-! ## Lemmas about the Merger -/

theorem mem_mergeRows_iff (input : SourceInput) (row : Row) :
    row ∈ mergeRows input ↔
      ∃ p ∈ input, ∃ r ∈ p.2, recRow input p.1 r = some row := by
  simp [mergeRows, List.mem_flatMap, List.mem_filterMap]

theorem merge_mem_of_record (input : SourceInput) (src : String)
    (recs : List SrcRec) (r : SrcRec) (fv : String × Value)
    (hmem : (src, recs) ∈ input) (hr : r ∈ recs)
    (hts : r.timestamp.isSome = true) (hfv : fv ∈ r.fields) :
    ∃ row ∈ (merge input).rows, row.source = src ∧
      (qualName input src fv.1, fv.2) ∈ row.cells := by
  obtain ⟨t, ht⟩ := Option.isSome_iff_exists.mp hts
  refine ⟨Row.mk src t (r.fields.map (fun c => (qualName input src c.1, c.2))),
          ?_, rfl, ?_⟩
  · have hmr : Row.mk src t (r.fields.map (fun c => (qualName input src c.1, c.2)))
        ∈ mergeRows input :=
      (mem_mergeRows_iff _ _).mpr ⟨(src, recs), hmem, r, hr, by simp [recRow, ht]⟩
    exact (mem_sortByTs _ _).mpr hmr
  · exact List.mem_map.mpr ⟨fv, hfv, rfl⟩

theorem length_filterMap_recRow (input : SourceInput) (src : String)
    (recs : List SrcRec) :
    (recs.filterMap (recRow input src)).length
      = (recs.filter (fun r => r.timestamp.isSome)).length := by
  induction recs with
  | nil => rfl
  | cons r rs ih =>
    cases ht : r.timestamp with
    | none => simp [List.filterMap_cons, List.filter_cons, recRow, ht, ih]
    | some t => simp [List.filterMap_cons, List.filter_cons, recRow, ht, ih]

theorem length_mergeRows (input : SourceInput) :
    (mergeRows input).length
      = (input.map
          (fun p => (p.2.filter (fun r => r.timestamp.isSome)).length)).sum := by
  rw [mergeRows, List.length_flatMap]
  exact congrArg List.sum
    (List.map_congr_left (fun p _ => length_filterMap_recRow input p.1 p.2))

theorem mergeRows_source (input : SourceInput) (row : Row)
    (h : row ∈ mergeRows input) :
    ∃ p ∈ input, row.source = p.1 ∧ ∃ r ∈ p.2, recRow input p.1 r = some row := by
  obtain ⟨p, hp, r, hr, hrec⟩ := (mem_mergeRows_iff input row).mp h
  refine ⟨p, hp, ?_, r, hr, hrec⟩
  unfold recRow at hrec
  cases ht : r.timestamp with
  | none => rw [ht] at hrec; cases hrec
  | some t =>
    rw [ht] at hrec
    cases hrec
    rfl

/-! ## Claim C1: merge losslessness -/

/-- Claim C1, counterexample: the claim as stated quantifies over every
(source, field, value) triple present in some input record, but the Merger
rejects records lacking a timestamp (§4.1), so the triple of a
timestamp-less record appears in no cell of the UnifiedTable. -/
theorem merge_lossless_counterexample :
    (∃ p ∈ c1InputNoTs, ∃ r ∈ p.2, ("fld", Value.num 7) ∈ r.fields) ∧
    ¬ (∃ row ∈ (merge c1InputNoTs).rows, ∃ cv ∈ row.cells,
        cv.2 = Value.num 7) := by
  decide

/-- Claim C1 (amended): every (source, field, value) triple present in some
input record that carries a timestamp appears in some cell of the
UnifiedTable (in a row of that source, under the qualified column name),
and the row count of the UnifiedTable equals the sum over sources of the
number of input records that carry a timestamp. -/
theorem merge_lossless_timestamped (input : SourceInput) :
    (∀ src recs, (src, recs) ∈ input → ∀ r ∈ recs,
      r.timestamp.isSome = true → ∀ fv ∈ r.fields,
        ∃ row ∈ (merge input).rows, row.source = src ∧
          (qualName input src fv.1, fv.2) ∈ row.cells) ∧
    (merge input).rows.length
      = (input.map
          (fun p => (p.2.filter (fun r => r.timestamp.isSome)).length)).sum := by
  constructor
  · intro src recs hmem r hr hts fv hfv
    exact merge_mem_of_record input src recs r fv hmem hr hts hfv
  · show (sortByTs (mergeRows input)).length = _
    rw [length_sortByTs, length_mergeRows]

/-- Witness for C1 at a concrete input: the triple
(expo, f, 1) of the timestamped record appears in a cell, and the row
count is 1. -/
theorem merge_lossless_timestamped_witness :
    (∃ row ∈ (merge c1InputOk).rows, row.source = "expo" ∧
      (qualName c1InputOk "expo" "f", Value.num 1) ∈ row.cells) ∧
    (merge c1InputOk).rows.length
      = (c1InputOk.map
          (fun p => (p.2.filter (fun r => r.timestamp.isSome)).length)).sum :=
  ⟨(merge_lossless_timestamped c1InputOk).1 "expo"
      [{ timestamp := some 5, fields := [("f", Value.num 1)] }] (by decide)
      { timestamp := some 5, fields := [("f", Value.num 1)] } (by decide)
      (by decide) ("f", Value.num 1) (by decide),
   (merge_lossless_timestamped c1InputOk).2⟩

/-! ## Claim C2: density threshold boundary -/

/-- Claim C2: for every UnifiedTable and density threshold in [0,1], the
Compactor keeps a column iff its density strictly exceeds the threshold;
densities at or below the threshold are dropped. -/
theorem compact_keep_iff_density (t : UnifiedTable) (th : ℚ)
    (h0 : 0 ≤ th) (h1 : th ≤ 1) (c : String) :
    c ∈ (compact t th).columns ↔ c ∈ t.columns ∧ th < density t c := by
  show c ∈ keptColumns t th ↔ _
  simp [keptColumns, List.mem_filter]

/-- Witness for C2 at threshold 1/2 on `c2Table`: column b (density 3/4,
strictly above) is kept; column a (density exactly 1/2, the boundary) is
dropped. -/
theorem compact_keep_iff_density_witness :
    (0 : ℚ) ≤ mkRat 1 2 ∧ mkRat 1 2 ≤ (1 : ℚ) ∧
    ("b" ∈ (compact c2Table (mkRat 1 2)).columns ↔
      "b" ∈ c2Table.columns ∧ mkRat 1 2 < density c2Table "b") ∧
    ("a" ∈ (compact c2Table (mkRat 1 2)).columns ↔
      "a" ∈ c2Table.columns ∧ mkRat 1 2 < density c2Table "a") ∧
    density c2Table "a" = mkRat 1 2 ∧ "a" ∉ (compact c2Table (mkRat 1 2)).columns ∧
    "b" ∈ (compact c2Table (mkRat 1 2)).columns :=
  ⟨by decide, by decide,
   compact_keep_iff_density c2Table (mkRat 1 2) (by decide) (by decide) "b",
   compact_keep_iff_density c2Table (mkRat 1 2) (by decide) (by decide) "a",
   by decide, by decide, by decide⟩

/-! ## Claim C3: compaction frame property -/

/-- Claim C3: compaction only removes whole rows and whole columns — the
compacted column set is a subset of the unified column set, and every
retained row comes from a unified row with the same source and timestamp
whose retained cells are identical cells of that original row. -/
theorem compact_frame_preservation (t : UnifiedTable) (th : ℚ) :
    ((compact t th).columns ⊆ t.columns) ∧
    (∀ row2 ∈ (compact t th).rows, ∃ row ∈ t.rows,
      row2.source = row.source ∧ row2.ts = row.ts ∧
        ∀ cv ∈ row2.cells, cv ∈ row.cells) := by
  constructor
  · intro c hc
    exact (List.mem_filter.mp hc).1
  · intro row2 h2
    have h3 := List.mem_filter.mp h2
    obtain ⟨row, hrow, heq⟩ := List.mem_map.mp h3.1
    subst heq
    refine ⟨row, hrow, rfl, rfl, ?_⟩
    intro cv hcv
    exact (List.mem_filter.mp hcv).1

/-- Witness for C3: the retained first row of `c2Table` at threshold 1/2
keeps its source, timestamp, and the identical cell (b, 2). -/
theorem compact_frame_preservation_witness :
    ∃ row ∈ c2Table.rows, c3Row.source = row.source ∧ c3Row.ts = row.ts ∧
      ∀ cv ∈ c3Row.cells, cv ∈ row.cells :=
  (compact_frame_preservation c2Table (mkRat 1 2)).2 c3Row (by decide)

/-- The density is the quotient `populated_row_count / total_row_count`. -/
theorem density_eq_div (t : UnifiedTable) (c : String) :
    density t c = (populatedCount t c : ℚ) / (t.rows.length : ℚ) := by
  rw [density, Rat.mkRat_eq_div]
  norm_num

/-- The null ratio is the quotient of null buckets over all buckets. -/
theorem nullRatio_eq_div (cells : List AggValue) :
    nullRatio cells = (cells.countP isNullAgg : ℚ) / (cells.length : ℚ) := by
  rw [nullRatio, Rat.mkRat_eq_div]
  norm_num

/-! ## Lemmas about the bucket partition -/

theorem mem_bucketsList (ws we P : Nat) (b : Nat × Nat) :
    b ∈ bucketsList ws we P ↔
      ∃ i, i < ceilDiv (we - ws) P ∧
        b = (ws + i * P, min (ws + (i + 1) * P) we) := by
  simp only [bucketsList, List.mem_map, List.mem_range]
  constructor
  · rintro ⟨i, hi, hb⟩
    exact ⟨i, hi, hb.symm⟩
  · rintro ⟨i, hi, hb⟩
    exact ⟨i, hi, hb.symm⟩

theorem ceilDiv_mul_bound {W P i : Nat} (hP : 0 < P) (hi : i < ceilDiv W P) :
    i * P < W := by
  rcases Nat.eq_zero_or_pos W with hW | hW
  · subst hW
    have hz : ceilDiv 0 P = 0 := by
      unfold ceilDiv
      exact Nat.div_eq_of_lt (by omega)
    omega
  · have hrw : W + P - 1 = (W - 1) + P := by omega
    unfold ceilDiv at hi
    rw [hrw, Nat.add_div_right _ hP] at hi
    have h2 : i ≤ (W - 1) / P := by omega
    have h3 : i * P ≤ W - 1 := (Nat.le_div_iff_mul_le hP).mp h2
    omega

theorem div_lt_ceilDiv {W P d : Nat} (hP : 0 < P) (hd : d < W) :
    d / P < ceilDiv W P := by
  have hrw : W + P - 1 = (W - 1) + P := by omega
  unfold ceilDiv
  rw [hrw, Nat.add_div_right _ hP]
  have hdd : d / P ≤ (W - 1) / P := Nat.div_le_div_right (by omega)
  omega

theorem lt_div_succ_mul (d P : Nat) (hP : 0 < P) : d < (d / P + 1) * P := by
  have h1 : P * (d / P) + d % P = d := Nat.div_add_mod d P
  have h2 : d % P < P := Nat.mod_lt _ hP
  have h3 : (d / P + 1) * P = P * (d / P) + P := by ring
  omega

theorem bucket_index_unique {ws we P x : Nat} {i j : Nat}
    (hi : ws + i * P ≤ x ∧ x < min (ws + (i + 1) * P) we)
    (hj : ws + j * P ≤ x ∧ x < min (ws + (j + 1) * P) we) : i = j := by
  by_contra hne
  rcases Nat.lt_or_ge i j with hlt | hge
  · have h1 : (i + 1) * P ≤ j * P := Nat.mul_le_mul_right _ (by omega)
    have h2 : x < ws + (i + 1) * P := lt_of_lt_of_le hi.2 (min_le_left _ _)
    omega
  · have hji : j < i := by omega
    have h1 : (j + 1) * P ≤ i * P := Nat.mul_le_mul_right _ (by omega)
    have h2 : x < ws + (j + 1) * P := lt_of_lt_of_le hj.2 (min_le_left _ _)
    omega

theorem bucket_exists_unique {ws we P : Nat} (hP : 0 < P) (x : Nat)
    (hlo : ws ≤ x) (hhi : x < we) :
    ∃! b, b ∈ bucketsList ws we P ∧ b.1 ≤ x ∧ x < b.2 := by
  have hd1 : (x - ws) / P * P ≤ x - ws := Nat.div_mul_le_self _ _
  have hd2 : x - ws < ((x - ws) / P + 1) * P := lt_div_succ_mul _ _ hP
  have hidx : (x - ws) / P < ceilDiv (we - ws) P := div_lt_ceilDiv hP (by omega)
  refine ⟨(ws + (x - ws) / P * P, min (ws + ((x - ws) / P + 1) * P) we),
          ⟨(mem_bucketsList ws we P _).mpr ⟨(x - ws) / P, hidx, rfl⟩,
           by omega, lt_min (by omega) hhi⟩, ?_⟩
  rintro b ⟨hbmem, hbx⟩
  obtain ⟨j, hj, hbeq⟩ := (mem_bucketsList ws we P b).mp hbmem
  subst hbeq
  have hij : j = (x - ws) / P :=
    bucket_index_unique hbx ⟨by omega, lt_min (by omega) hhi⟩
  subst hij
  rfl

theorem bucketsList_within {ws we P : Nat} (hP : 0 < P) (b : Nat × Nat)
    (hb : b ∈ bucketsList ws we P) :
    ws ≤ b.1 ∧ b.1 < b.2 ∧ b.2 ≤ we := by
  obtain ⟨i, hi, hbeq⟩ := (mem_bucketsList ws we P b).mp hb
  subst hbeq
  have h1 : i * P < we - ws := ceilDiv_mul_bound hP hi
  have h2 : i * P < (i + 1) * P := by
    have : (i + 1) * P = i * P + P := by ring
    omega
  refine ⟨by omega, lt_min (by omega) (by omega), min_le_right _ _⟩

/-! ## Claim C4: bucket completeness -/

/-- Claim C4: for every window and positive period, the ReducedTable has
exactly ceil(W/P) buckets; every bucket is a nonempty subinterval of the
window (so the final bucket is shortened, not dropped); every point of the
window — in particular every row timestamp — lies in exactly one bucket;
and every configured bucket appears in the ReducedTable, with null
aggregates when no row falls in it. -/
theorem reduce_bucket_partition (t : UnifiedTable) (ws we P : Nat)
    (hP : 0 < P) (hrows : ∀ row ∈ t.rows, ws ≤ row.ts ∧ row.ts < we) :
    ((reduce t ws we P).length = ceilDiv (we - ws) P) ∧
    (∀ b ∈ bucketsList ws we P, ws ≤ b.1 ∧ b.1 < b.2 ∧ b.2 ≤ we) ∧
    (∀ x, ws ≤ x → x < we →
      ∃! b, b ∈ bucketsList ws we P ∧ b.1 ≤ x ∧ x < b.2) ∧
    (∀ row ∈ t.rows,
      ∃! b, b ∈ bucketsList ws we P ∧ b.1 ≤ row.ts ∧ row.ts < b.2) ∧
    (∀ b ∈ bucketsList ws we P, ∃ e ∈ reduce t ws we P,
      e.lo = b.1 ∧ e.hi = b.2 ∧
        (rowsIn t.rows b = [] →
          e.agg = t.columns.map (fun c => (c, AggValue.nullAgg)))) := by
  refine ⟨?_, fun b hb => bucketsList_within hP b hb,
          fun x hlo hhi => bucket_exists_unique hP x hlo hhi,
          fun row hrow =>
            bucket_exists_unique hP row.ts (hrows row hrow).1 (hrows row hrow).2,
          ?_⟩
  · rw [reduce, List.length_map, bucketsList, List.length_map,
        List.length_range]
  · intro b hb
    refine ⟨bucketEntry t b, List.mem_map.mpr ⟨b, hb, rfl⟩, rfl, rfl, ?_⟩
    intro hempty
    show t.columns.map _ = _
    simp only [hempty]
    apply List.map_congr_left
    intro c _
    rfl

/-- Witness for C4 on `c4Table` over the window [0, 10) with period 4:
the hypotheses hold, the ReducedTable has ceil(10/4) = 3 buckets, and the
point 5 lies in exactly one bucket. -/
theorem reduce_bucket_partition_witness :
    (0 : Nat) < 4 ∧ (∀ row ∈ c4Table.rows, 0 ≤ row.ts ∧ row.ts < 10) ∧
    ((reduce c4Table 0 10 4).length = ceilDiv (10 - 0) 4) ∧
    (∃! b, b ∈ bucketsList 0 10 4 ∧ b.1 ≤ 5 ∧ 5 < b.2) :=
  ⟨by decide, by decide,
   (reduce_bucket_partition c4Table 0 10 4 (by decide) (by decide)).1,
   (reduce_bucket_partition c4Table 0 10 4 (by decide) (by decide)).2.2.1 5
     (by decide) (by decide)⟩

/-! ## Claim C5: reduction on a singleton bucket -/

/-- Claim C5: when the period is at least the window length, the
ReducedTable is exactly one bucket spanning the whole window, whose
aggregates are the full-window aggregates of the CompactedTable. -/
theorem reduce_single_bucket (t : UnifiedTable) (ws we P : Nat)
    (hwin : ws < we) (hWP : we - ws ≤ P)
    (hrows : ∀ row ∈ t.rows, ws ≤ row.ts ∧ row.ts < we) :
    reduce t ws we P = [{ lo := ws, hi := we, agg := fullWindowAgg t }] := by
  have hP : 0 < P := by omega
  have hone : ceilDiv (we - ws) P = 1 := by
    unfold ceilDiv
    have h1 : 1 ≤ (we - ws + P - 1) / P :=
      (Nat.le_div_iff_mul_le hP).mpr (by omega)
    have h2 : (we - ws + P - 1) / P < 2 := by
      rw [Nat.div_lt_iff_lt_mul hP]
      omega
    omega
  rw [reduce, bucketsList, hone]
  have hrange : List.range 1 = [0] := rfl
  rw [hrange, List.map_cons, List.map_nil, List.map_cons, List.map_nil]
  have e1 : 0 * P = 0 := by ring
  have e2 : (0 + 1) * P = P := by ring
  have hpair2 : (ws + 0 * P, min (ws + (0 + 1) * P) we) = ((ws, we) : Nat × Nat) := by
    rw [Prod.mk.injEq]
    constructor
    · omega
    · omega
  rw [hpair2]
  have hr : rowsIn t.rows (ws, we) = t.rows := by
    apply List.filter_eq_self.mpr
    intro r hrmem
    simp only [Bool.and_eq_true, decide_eq_true_eq]
    exact hrows r hrmem
  show [bucketEntry t (ws, we)] = _
  rw [bucketEntry]
  simp only [hr]
  rfl

/-- Witness for C5 on `c5Table` over the window [0, 4) with period 8:
one bucket spanning [0, 4) carrying the full-window aggregates. -/
theorem reduce_single_bucket_witness :
    (0 : Nat) < 4 ∧ 4 - 0 ≤ 8 ∧
    reduce c5Table 0 4 8 = [{ lo := 0, hi := 4, agg := fullWindowAgg c5Table }] :=
  ⟨by decide, by decide,
   reduce_single_bucket c5Table 0 4 8 (by decide) (by decide) (by decide)⟩

/-! ## Claim C6: classification determinism -/

/-- Claim C6: the Density Classifier is a deterministic function of the
ReducedTable and its configured thresholds — running it under any two
ambient run states (run counter, wall clock) yields identical column
classifications, and running it twice in sequence yields identical
classifications. -/
theorem classifier_deterministic (ctx1 ctx2 : RunContext)
    (cfg : ClassifierConfig) (t : ReducedTable) :
    ((densityClassifyRun ctx1 cfg t).1 = (densityClassifyRun ctx2 cfg t).1) ∧
    ((densityClassifyRun (densityClassifyRun ctx1 cfg t).2 cfg t).1
      = (densityClassifyRun ctx1 cfg t).1) :=
  ⟨rfl, rfl⟩

/-! ## Claim C7: per-source failure isolation -/

theorem nodup_fst_eq {l : List (String × SourceResult)}
    (hnd : (l.map Prod.fst).Nodup) {s : String} {a b : SourceResult}
    (ha : (s, a) ∈ l) (hb : (s, b) ∈ l) : a = b := by
  induction l with
  | nil => cases ha
  | cons p ps ih =>
    rw [List.map_cons, List.nodup_cons] at hnd
    rcases List.mem_cons.mp ha with h1 | h1 <;>
      rcases List.mem_cons.mp hb with h2 | h2
    · rw [← h1] at h2
      cases h2
      rfl
    · exfalso
      apply hnd.1
      rw [← h1]
      exact List.mem_map.mpr ⟨(s, b), h2, rfl⟩
    · exfalso
      apply hnd.1
      rw [← h2]
      exact List.mem_map.mpr ⟨(s, a), h1, rfl⟩
    · exact ih hnd.2 h1 h2

theorem merge_no_rows_from_failed (results : List (String × SourceResult))
    (hnd : (results.map Prod.fst).Nodup) (src : String) (res : SourceResult)
    (hmem : (src, res) ∈ results) (hok : res.ok = false) :
    ∀ row ∈ (merge (mergedInput results)).rows, row.source ≠ src := by
  intro row hrow heq
  have hrow2 : row ∈ mergeRows (mergedInput results) :=
    (mem_sortByTs _ _).mp hrow
  obtain ⟨p, hp, hsrc, r, hr, hrec⟩ := mergeRows_source _ _ hrow2
  obtain ⟨q, hq, hpq⟩ := List.mem_map.mp hp
  have hq1 : q.1 = src := by
    have : p.1 = src := by rw [← hsrc, heq]
    rw [← this, ← hpq]
  have hqmem : (src, q.2) ∈ results := by
    rw [← hq1]
    simpa using hq
  have hq2 : q.2 = res := nodup_fst_eq hnd hqmem hmem
  have hp2 : p.2 = [] := by
    rw [← hpq]
    simp [hq2, hok]
  rw [hp2] at hr
  cases hr

/-- Claim C7: with a valid configuration, report generation always returns
a report (never raises); a failed source contributes zero rows to the
merge; the metadata lists exactly the failed and the succeeded sources; and
the timestamped data of every succeeded source still reaches the unified table
behind the report. -/
theorem source_failure_isolated (cfg : PipelineConfig)
    (results : List (String × SourceResult))
    (hcfg : validConfig cfg = true)
    (hnd : (results.map Prod.fst).Nodup) :
    ∃ rpt, runReport cfg results = Except.ok rpt ∧
      rpt.metadata.sources_failed
        = (results.filter (fun p => !p.2.ok)).map Prod.fst ∧
      rpt.metadata.sources_used
        = (results.filter (fun p => p.2.ok)).map Prod.fst ∧
      (∀ src res, (src, res) ∈ results → res.ok = false →
        ∀ row ∈ (merge (mergedInput results)).rows, row.source ≠ src) ∧
      (∀ src res, (src, res) ∈ results → res.ok = true →
        ∀ r ∈ res.records, r.timestamp.isSome = true → ∀ fv ∈ r.fields,
          ∃ row ∈ (merge (mergedInput results)).rows, row.source = src ∧
            (qualName (mergedInput results) src fv.1, fv.2) ∈ row.cells) := by
  rw [runReport]
  rw [if_pos hcfg]
  refine ⟨_, rfl, rfl, rfl, ?_, ?_⟩
  · exact fun src res hmem hok =>
      merge_no_rows_from_failed results hnd src res hmem hok
  · intro src res hmem hok r hr hts fv hfv
    refine merge_mem_of_record (mergedInput results) src res.records r fv
      ?_ hr hts hfv
    exact List.mem_map.mpr ⟨(src, res), hmem, by simp [hok]⟩

/-- Witness for C7 at the §8 scenario: one source fails with a network
error, two succeed; the report is produced, its metadata lists the one
failed and the two succeeded sources. -/
theorem source_failure_isolated_witness :
    validConfig c7Cfg = true ∧ (c7Sources.map Prod.fst).Nodup ∧
    (∃ rpt, runReport c7Cfg c7Sources = Except.ok rpt ∧
      rpt.metadata.sources_failed
        = (c7Sources.filter (fun p => !p.2.ok)).map Prod.fst ∧
      rpt.metadata.sources_used
        = (c7Sources.filter (fun p => p.2.ok)).map Prod.fst ∧
      (∀ src res, (src, res) ∈ c7Sources → res.ok = false →
        ∀ row ∈ (merge (mergedInput c7Sources)).rows, row.source ≠ src) ∧
      (∀ src res, (src, res) ∈ c7Sources → res.ok = true →
        ∀ r ∈ res.records, r.timestamp.isSome = true → ∀ fv ∈ r.fields,
          ∃ row ∈ (merge (mergedInput c7Sources)).rows, row.source = src ∧
            (qualName (mergedInput c7Sources) src fv.1, fv.2) ∈ row.cells)) :=
  ⟨by decide, by decide,
   source_failure_isolated c7Cfg c7Sources (by decide) (by decide)⟩

/-! ## Claim C8: configuration error handling -/

/-- Claim C8, counterexample: with number_of_days = 0 — invalid per the
NightLog.yaml minimum of 1 — the notebook run does not fail fatally before
retrieval: it prints an error message, substitutes the default, retrieves,
and still produces a report. -/
theorem config_error_not_fatal_counterexample :
    paramsValid c8BadParams = false ∧
    (nightLogRun 20240924 c8BadParams []).report.isSome = true ∧
    (nightLogRun 20240924 c8BadParams []).shown_error.isSome = true := by
  decide

theorem fallback_params_valid (p : RawParams) :
    paramsValid (fallback_parameters p).1 = true := by
  have hday : dayObsValid (fallback_parameters p).1.day_obs = true := by
    show dayObsValid
      (if dayObsValid p.day_obs = true then p.day_obs
       else DayObsParam.yesterday) = true
    by_cases h : dayObsValid p.day_obs = true
    · rwa [if_pos h]
    · rw [if_neg h]
      rfl
  have hnd : (fallback_parameters p).1.number_of_days
      = (if (decide (1 ≤ p.number_of_days) &&
             decide (p.number_of_days ≤ 9)) = true
         then p.number_of_days else 1) := rfl
  have hd1 : decide (1 ≤ (fallback_parameters p).1.number_of_days) = true := by
    rw [hnd]
    by_cases h : (decide (1 ≤ p.number_of_days) &&
        decide (p.number_of_days ≤ 9)) = true
    · rw [if_pos h]
      exact (Bool.and_eq_true _ _).mp h |>.1
    · rw [if_neg h]
      decide
  have hd2 : decide ((fallback_parameters p).1.number_of_days ≤ 9) = true := by
    rw [hnd]
    by_cases h : (decide (1 ≤ p.number_of_days) &&
        decide (p.number_of_days ≤ 9)) = true
    · rw [if_pos h]
      exact (Bool.and_eq_true _ _).mp h |>.2
    · rw [if_neg h]
      decide
  have hper : decide (0 < (fallback_parameters p).1.period_hours) = true := by
    show decide (0 < (if decide (0 < p.period_hours) = true
        then p.period_hours else 4)) = true
    by_cases h : decide (0 < p.period_hours) = true
    · rw [if_pos h]
      exact h
    · rw [if_neg h]
      decide
  unfold paramsValid
  rw [hday, hd1, hd2, hper]
  rfl

theorem fallback_error_of_invalid (p : RawParams)
    (hbad : paramsValid p = false) :
    ((fallback_parameters p).2).isSome = true := by
  unfold paramsValid at hbad
  show (if (dayObsValid p.day_obs &&
        (decide (1 ≤ p.number_of_days) && decide (p.number_of_days ≤ 9)) &&
        decide (0 < p.period_hours)) = true
      then (none : Option String)
      else some "bad parameter value replaced by its default").isSome = true
  cases hA : dayObsValid p.day_obs <;>
    cases hB : decide ((1 : Int) ≤ p.number_of_days) <;>
      cases hC : decide (p.number_of_days ≤ (9 : Int)) <;>
        cases hD : decide (0 < p.period_hours) <;>
          simp [hA, hB, hC, hD] at hbad ⊢

theorem cfgOfUsable_valid (u : RawParams) (hu : paramsValid u = true) :
    validConfig (cfgOfUsable u) = true := by
  unfold paramsValid at hu
  simp only [Bool.and_eq_true, decide_eq_true_eq] at hu
  obtain ⟨⟨⟨hday, h1⟩, h2⟩, h4⟩ := hu
  show (decide (0 < u.period_hours) && decide ((0 : ℚ) ≤ 0) &&
      decide ((0 : ℚ) ≤ 1) &&
      decide ((0 : Nat) < 24 * u.number_of_days.toNat)) = true
  simp only [Bool.and_eq_true, decide_eq_true_eq]
  refine ⟨⟨⟨h4, le_refl 0⟩, by norm_num⟩, by omega⟩

theorem run_report_isSome (u : RawParams)
    (results : List (String × SourceResult)) (hu : paramsValid u = true) :
    ((runReport (cfgOfUsable u) results).toOption).isSome = true := by
  rw [runReport, if_pos (cfgOfUsable_valid u hu)]
  rfl

/-- Claim C8 (amended): invalid configuration values are detected before
any source retrieval begins and replaced by their defaults; the error is
reported visibly to the caller; and the run then proceeds with the usable
values (which always satisfy the parameter bounds) rather than failing
fatally. -/
theorem config_fallback_proceeds (todayNum : Int) (p : RawParams)
    (results : List (String × SourceResult))
    (hbad : paramsValid p = false) :
    paramsValid (nightLogRun todayNum p results).usable = true ∧
    (nightLogRun todayNum p results).shown_error.isSome = true ∧
    (nightLogRun todayNum p results).report.isSome = true := by
  refine ⟨fallback_params_valid p, fallback_error_of_invalid p hbad, ?_⟩
  exact run_report_isSome (fallback_parameters p).1 results
    (fallback_params_valid p)

/-- Witness for C8 at the concrete invalid parameters. -/
theorem config_fallback_proceeds_witness :
    paramsValid c8BadParams = false ∧
    paramsValid (nightLogRun 20240924 c8BadParams []).usable = true ∧
    (nightLogRun 20240924 c8BadParams []).shown_error.isSome = true ∧
    (nightLogRun 20240924 c8BadParams []).report.isSome = true :=
  ⟨by decide,
   (config_fallback_proceeds 20240924 c8BadParams [] (by decide)).1,
   (config_fallback_proceeds 20240924 c8BadParams [] (by decide)).2.1,
   (config_fallback_proceeds 20240924 c8BadParams [] (by decide)).2.2⟩

/-! ## Claim C9: facets -/

/-- Claim C9, counterexample: the efd.ipynb facet comprehension filters out
list-typed values, so a value that is a list is observed for the field yet
missing from the computed facet — the facet is not the set of all distinct
values observed. -/
theorem facet_missing_list_value_counterexample :
    Value.vlist ["a"] ∈ observedVals c9Recs "f" ∧
    efdFacets c9Recs ["f"] = [("f", [])] := by
  decide

/-- Claim C9 (amended): for every facet field, the computed facet is the
duplicate-free set of distinct string renderings of the non-list values
observed for that field across the records; list-typed values are excluded
by the comprehension filter. -/
theorem facet_distinct_nonlist_strings (recs : List (List (String × Value)))
    (facflds : List String) (fld : String) (hf : fld ∈ facflds)
    (s : String) :
    ((fld, facetOf recs fld) ∈ efdFacets recs facflds) ∧
    ((facetOf recs fld).Nodup) ∧
    (s ∈ facetOf recs fld ↔ ∃ r ∈ recs,
      isListVal (recGet r fld) = false ∧ strOfVal (recGet r fld) = s) := by
  refine ⟨List.mem_map.mpr ⟨fld, hf, rfl⟩, List.nodup_dedup _, ?_⟩
  unfold facetOf
  rw [List.mem_dedup, List.mem_map]
  constructor
  · rintro ⟨r, hr, hs⟩
    have hfr := List.mem_filter.mp hr
    exact ⟨r, hfr.1, by simpa using hfr.2, hs⟩
  · rintro ⟨r, hr, hnl, hs⟩
    exact ⟨r, List.mem_filter.mpr ⟨hr, by simpa using hnl⟩, hs⟩

/-- Witness for C9: two records both carrying the scalar "x" produce the
facet with the single entry "x". -/
theorem facet_distinct_nonlist_strings_witness :
    ("f" ∈ ["f"]) ∧
    (("f", facetOf c9ScalarRecs "f") ∈ efdFacets c9ScalarRecs ["f"]) ∧
    ((facetOf c9ScalarRecs "f").Nodup) ∧
    ("x" ∈ facetOf c9ScalarRecs "f" ↔ ∃ r ∈ c9ScalarRecs,
      isListVal (recGet r "f") = false ∧ strOfVal (recGet r "f") = "x") :=
  ⟨by decide,
   (facet_distinct_nonlist_strings c9ScalarRecs ["f"] "f" (by decide) "x").1,
   (facet_distinct_nonlist_strings c9ScalarRecs ["f"] "f" (by decide) "x").2.1,
   (facet_distinct_nonlist_strings c9ScalarRecs ["f"] "f" (by decide) "x").2.2⟩

/-! ## Claim C10: the resolved reporting window -/

/-- Claim C10: for a valid day_obs date D and n ≥ 1 days, the resolved
window is the half-open day interval [D - (n-1), D + 1): the lower bound is
inclusive, the upper bound exclusive, the window spans exactly n observing
nights, and the night starting on D is included. -/
theorem day_obs_window (d n : Int) (hn : 1 ≤ n) :
    (∀ x, inReportWindow d n x ↔ (d - (n - 1) ≤ x ∧ x ≤ d)) ∧
    inReportWindow d n (min_day_obs d n) ∧
    ¬ inReportWindow d n (max_day_obs d) ∧
    inReportWindow d n d ∧
    max_day_obs d - min_day_obs d n = n := by
  unfold inReportWindow min_day_obs max_day_obs
  refine ⟨fun x => ?_, ?_, ?_, ?_, ?_⟩ <;> omega

/-- Witness for C10 at D = 20240924 (as a day number) and n = 3. -/
theorem day_obs_window_witness :
    (1 : Int) ≤ 3 ∧
    (∀ x, inReportWindow 20240924 3 x ↔
      ((20240924 : Int) - (3 - 1) ≤ x ∧ x ≤ 20240924)) ∧
    inReportWindow 20240924 3 20240924 ∧
    max_day_obs 20240924 - min_day_obs 20240924 3 = 3 :=
  ⟨by decide,
   (day_obs_window 20240924 3 (by decide)).1,
   (day_obs_window 20240924 3 (by decide)).2.2.2.1,
   (day_obs_window 20240924 3 (by decide)).2.2.2.2⟩

end LogRep
